import Mathlib

/-!
Shallow embedding of the camera manager of the memonitor firmware
(src/main/src/camera_manager.c), with proofs about its capture pipeline:
rate limiting, gate serialization, bounded retry with exponential
backoff, illumination control, frame-buffer conservation, tiered buffer
allocation and base64 buffer sizing.

Modelling conventions:
* FreeRTOS ticks are modelled at a 1 kHz tick rate, so one tick is one
  millisecond; TickType_t arithmetic is taken modulo 2^32 as in C.
* side effects (GPIO writes, semaphore operations, peripheral calls,
  delays, heap calls) are recorded as an explicit event trace in program
  order.
* external peripheral and library behaviour (frame availability, heap
  allocation success, the base64 transform status) is supplied by an
  environment record, one field per external call site.
* the float constant BASE64_OVERHEAD_FACTOR = 1.4f is modelled as the
  exact rational 7/5, and the C cast (size_t) as the floor.
-/

namespace Memonitor

/-- MAX_CAPTURE_RETRIES from camera_manager.c. -/
def MAX_CAPTURE_RETRIES : Nat := 3

/-- RETRY_DELAY_MS from camera_manager.c. -/
def RETRY_DELAY_MS : Nat := 100

/-- MIN_CAPTURE_INTERVAL_MS from camera_manager.c. -/
def MIN_CAPTURE_INTERVAL_MS : Nat := 500

/-- FLASH_WARMUP_MS from camera_manager.c. -/
def FLASH_WARMUP_MS : Nat := 200

/-- FLASH_STABILIZE_MS from camera_manager.c. -/
def FLASH_STABILIZE_MS : Nat := 100

/-- PSRAM_MIN_SIZE_THRESHOLD from camera_manager.c. -/
def PSRAM_MIN_SIZE_THRESHOLD : Nat := 8192

/-- Ticks are modelled at a 1 kHz tick rate: pdMS_TO_TICKS is the identity. -/
def pdMS_TO_TICKS (ms : Nat) : Nat := ms

/-- TickType_t is a 32-bit unsigned counter. -/
def TICK_MOD : Nat := 2 ^ 32

/-- C unsigned 32-bit subtraction a - b on tick counts. -/
def tickSub (a b : Nat) : Nat := (a % TICK_MOD + TICK_MOD - b % TICK_MOD) % TICK_MOD

/-- One camera_fb_t as seen by the manager: its length and whether its
data pointer buf is NULL.  The payload bytes themselves are not
modelled; only their count matters to the manager. -/
structure Frame where
  len : Nat
  bufNull : Bool
deriving DecidableEq, Repr

/-- Validation test of a capture attempt, from the retry loop:
fb != NULL && fb->len > 0 && fb->buf != NULL.  The outer Option is the
NULL-ness of the fb pointer itself. -/
def validFrame : Option Frame → Bool
  | none => false
  | some f => f.len != 0 && !f.bufNull

/-- fb->len, with the convention that a NULL fb reads as length 0
(the code never dereferences a NULL fb; this case is unused). -/
def frameLen : Option Frame → Nat
  | none => 0
  | some f => f.len

/-- esp_err_t values returned by the camera manager. -/
inductive EspErr where
  | ok
  | fail
  | invalidArg
  | invalidState
  | timeout
  | noMem
  | periphError (code : Nat)
deriving DecidableEq, Repr

/-- Observable side effects of the capture paths, in program order. -/
inductive Ev where
  | readLastCapture           -- the rate limiter reads last_capture_time
  | rateWait (ticks : Nat)    -- vTaskDelay(wait_time) inside the rate limiter
  | semTake                   -- xSemaphoreTake(camera_semaphore, ...): gate acquired
  | semGive                   -- xSemaphoreGive(camera_semaphore): gate released
  | flash (level : Bool)      -- gpio_set_level(FLASH_GPIO_NUM, level)
  | flush                     -- a call to clear_camera_buffers(...)
  | settleDelay (ms : Nat)    -- pre-capture settling vTaskDelay
  | warmupDelay               -- vTaskDelay(pdMS_TO_TICKS(FLASH_WARMUP_MS))
  | stabilizeDelay            -- vTaskDelay(pdMS_TO_TICKS(FLASH_STABILIZE_MS))
  | backoffDelay (ms : Nat)   -- exponential backoff vTaskDelay between attempts
  | fbGet (attempt : Nat)     -- esp_camera_fb_get() of a capture attempt
  | fbReturn (attempt : Nat)  -- esp_camera_fb_return of that attempt's frame
  | alloc (size : Nat) (ok : Bool)  -- allocate_base64_buffer(size, &used_psram)
  | b64 (status : Nat)        -- mbedtls_base64_encode returned this status
  | writeOutput               -- *base64_output and *output_len are written
  | writeLastCapture          -- last_capture_time = xTaskGetTickCount()
  | memFree                   -- free(encoded)
deriving DecidableEq, Repr

/-- The two memory pools of the tiered allocator. -/
inductive Pool where
  | psram
  | dram
deriving DecidableEq, Repr

/-- Availability of the two heaps at one allocation site. -/
structure AllocEnv where
  psramInit : Bool  -- esp_psram_is_initialized()
  psramOk : Bool    -- heap_caps_malloc(size, MALLOC_CAP_SPIRAM) succeeds
  dramOk : Bool     -- heap_caps_malloc(size, MALLOC_CAP_8BIT) succeeds
deriving DecidableEq, Repr

/-- Result of allocate_base64_buffer: the pool the buffer came from (none
when exhausted), the used_psram out-parameter, and the pools tried in
order. -/
structure AllocResult where
  buffer : Option Pool
  used_psram : Bool
  tried : List Pool
deriving DecidableEq, Repr

/-- allocate_base64_buffer from camera_manager.c: try PSRAM first when it
is initialized and the requested size exceeds PSRAM_MIN_SIZE_THRESHOLD,
fall back to the 8-bit DRAM heap otherwise or on PSRAM failure. -/
def allocate_base64_buffer (env : AllocEnv) (required_size : Nat) : AllocResult :=
  if env.psramInit && decide (PSRAM_MIN_SIZE_THRESHOLD < required_size) then
    if env.psramOk then ⟨some Pool.psram, true, [Pool.psram]⟩
    else if env.dramOk then ⟨some Pool.dram, false, [Pool.psram, Pool.dram]⟩
    else ⟨none, false, [Pool.psram, Pool.dram]⟩
  else
    if env.dramOk then ⟨some Pool.dram, false, [Pool.dram]⟩
    else ⟨none, false, [Pool.dram]⟩

/-- Which heap_caps_malloc succeeds, per pool, in a given heap state. -/
def poolOk (env : AllocEnv) : Pool → Bool
  | Pool.psram => env.psramOk
  | Pool.dram => env.dramOk

/-- encoded_len = (size_t)(fb->len * BASE64_OVERHEAD_FACTOR) + 64 from
camera_capture_to_base64, with BASE64_OVERHEAD_FACTOR = 1.4 modelled as
the exact rational 7/5 and the size_t cast as the floor. -/
def encoded_len (n : Nat) : Nat := 7 * n / 5 + 64

/-- Modelled from the spec: mbedtls_base64_encode is the external base64
transform (the mbedtls library, not part of src/); standard base64
emits 4 * ceil(n/3) characters for n input bytes. -/
def b64EncLen (n : Nat) : Nat := 4 * ((n + 2) / 3)

/-- Modelled from the spec: standard base64 pads the final quantum with
(3 - n mod 3) mod 3 padding characters, each the = sign. -/
def b64PadCount (n : Nat) : Nat := (3 - n % 3) % 3

/-- Rate-limiting prologue shared by both capture operations: read
last_capture_time and, when a previous capture exists and lies within
MIN_CAPTURE_INTERVAL_MS, delay for the remainder of the interval. -/
def rateTrace (last_capture_time current_time : Nat) : List Ev :=
  Ev.readLastCapture ::
    (if last_capture_time ≠ 0 then
      (let time_since_last := tickSub current_time last_capture_time
       let min_interval := pdMS_TO_TICKS MIN_CAPTURE_INTERVAL_MS
       if time_since_last < min_interval then
         [Ev.rateWait (min_interval - time_since_last)]
       else [])
    else [])

/-- One run of the retry loop of camera_capture_to_base64 over the given
list of attempt numbers: the emitted event trace, and the attempt on
which a valid frame was obtained, if any. -/
def attemptLoop (fbAt : Nat → Option Frame) : List Nat → List Ev × Option Nat
  | [] => ([], none)
  | attempt :: rest =>
    let fb := fbAt attempt
    let pre : List Ev :=
      [Ev.flush, Ev.settleDelay (if attempt = 1 then 300 else 100), Ev.flash true,
       Ev.warmupDelay, Ev.flush, Ev.stabilizeDelay, Ev.fbGet attempt]
    if validFrame fb then (pre, some attempt)
    else
      let cleanup : List Ev :=
        (if fb.isSome then [Ev.fbReturn attempt] else []) ++ [Ev.flash false]
      let backoff : List Ev :=
        if attempt < MAX_CAPTURE_RETRIES then
          [Ev.backoffDelay (RETRY_DELAY_MS * 2 ^ (attempt - 1))]
        else []
      let r := attemptLoop fbAt rest
      (pre ++ cleanup ++ backoff ++ r.1, r.2)

/-- Attempt numbers 1 .. MAX_CAPTURE_RETRIES of the retry loop. -/
def attemptSchedule : List Nat := List.range' 1 MAX_CAPTURE_RETRIES

/-- External behaviour visible to one call of camera_capture_to_base64. -/
structure Env where
  initialized : Bool          -- camera_initialized
  argsNull : Bool             -- base64_output == NULL or output_len == NULL
  last_capture_time : Nat     -- value read by the rate limiter
  currentTime : Nat           -- xTaskGetTickCount() at the rate check
  semAcquired : Bool          -- xSemaphoreTake succeeds within its 10 s bound
  fbAt : Nat → Option Frame   -- esp_camera_fb_get() result of each attempt
  alloc : AllocEnv            -- heap state at allocate_base64_buffer
  b64Status : Nat             -- status returned by mbedtls_base64_encode
  b64Len : Nat                -- actual_len written by the transform
  endTime : Nat               -- xTaskGetTickCount() after a successful encode

/-- Result of one call of camera_capture_to_base64: error code, event
trace, the value stored into *output_len if the outputs were written,
and the new last_capture_time if it was updated. -/
structure CaptureOut where
  err : EspErr
  trace : List Ev
  outputWritten : Option Nat
  newLastCapture : Option Nat
deriving DecidableEq, Repr

/-- Events of the encode phase of camera_capture_to_base64 (after the
unconditional flash-off), given that attempt a produced the frame:
allocation, transform, output hand-off and the cleanup epilogue. -/
def encodePhase (env : Env) (a : Nat) : EspErr × List Ev × Option Nat × Option Nat :=
  if (allocate_base64_buffer env.alloc (encoded_len (frameLen (env.fbAt a)) + 1)).buffer = none then
    (EspErr.noMem,
     [Ev.alloc (encoded_len (frameLen (env.fbAt a)) + 1) false, Ev.fbReturn a, Ev.semGive],
     none, none)
  else if env.b64Status ≠ 0 then
    (EspErr.fail,
     [Ev.alloc (encoded_len (frameLen (env.fbAt a)) + 1) true, Ev.b64 env.b64Status,
      Ev.fbReturn a, Ev.memFree, Ev.semGive],
     none, none)
  else
    (EspErr.ok,
     [Ev.alloc (encoded_len (frameLen (env.fbAt a)) + 1) true, Ev.b64 env.b64Status,
      Ev.writeOutput, Ev.writeLastCapture, Ev.fbReturn a, Ev.semGive],
     some env.b64Len, some env.endTime)

/-- camera_capture_to_base64 from camera_manager.c: argument and state
checks, rate limiting, gate acquisition, the retry loop, unconditional
flash-off, validation, allocation, base64 encode, hand-off, cleanup. -/
def camera_capture_to_base64 (env : Env) : CaptureOut :=
  if !env.initialized then
    ⟨EspErr.invalidState, [], none, none⟩
  else if env.argsNull then
    ⟨EspErr.invalidArg, [], none, none⟩
  else if !env.semAcquired then
    ⟨EspErr.timeout, rateTrace env.last_capture_time env.currentTime, none, none⟩
  else
    match (attemptLoop env.fbAt attemptSchedule).2 with
    | none =>
      ⟨EspErr.fail,
       rateTrace env.last_capture_time env.currentTime ++ [Ev.semTake] ++
         (attemptLoop env.fbAt attemptSchedule).1 ++ [Ev.flash false, Ev.semGive],
       none, none⟩
    | some a =>
      ⟨(encodePhase env a).1,
       rateTrace env.last_capture_time env.currentTime ++ [Ev.semTake] ++
         (attemptLoop env.fbAt attemptSchedule).1 ++ [Ev.flash false] ++
         (encodePhase env a).2.1,
       (encodePhase env a).2.2.1, (encodePhase env a).2.2.2⟩

/-- External behaviour visible to one call of camera_capture_raw. -/
structure RawEnv where
  initialized : Bool        -- camera_initialized
  fbArgNull : Bool          -- fb == NULL
  last_capture_time : Nat   -- value read by the rate limiter
  currentTime : Nat         -- xTaskGetTickCount() at the rate check
  semAcquired : Bool        -- xSemaphoreTake succeeds within its 5 s bound
  fbResult : Option Frame   -- esp_camera_fb_get() result
  endTime : Nat             -- xTaskGetTickCount() on success

/-- Result of one call of camera_capture_raw: error code, event trace,
the frame written into *fb, and the new last_capture_time if updated. -/
structure RawOut where
  err : EspErr
  trace : List Ev
  fbOut : Option Frame
  newLastCapture : Option Nat
deriving DecidableEq, Repr

/-- camera_capture_raw from camera_manager.c: checks, rate limiting, gate
acquisition, one flush, flash window, a single esp_camera_fb_get with a
NULL-only validation, flash-off, timestamp update on success. -/
def camera_capture_raw (env : RawEnv) : RawOut :=
  if !env.initialized then
    ⟨EspErr.invalidState, [], none, none⟩
  else if env.fbArgNull then
    ⟨EspErr.invalidArg, [], none, none⟩
  else if !env.semAcquired then
    ⟨EspErr.timeout, rateTrace env.last_capture_time env.currentTime, none, none⟩
  else
    match env.fbResult with
    | none =>
      ⟨EspErr.fail,
       rateTrace env.last_capture_time env.currentTime ++
         [Ev.semTake, Ev.flush, Ev.flash true, Ev.warmupDelay, Ev.stabilizeDelay,
          Ev.fbGet 1, Ev.flash false, Ev.semGive],
       none, none⟩
    | some f =>
      ⟨EspErr.ok,
       rateTrace env.last_capture_time env.currentTime ++
         [Ev.semTake, Ev.flush, Ev.flash true, Ev.warmupDelay, Ev.stabilizeDelay,
          Ev.fbGet 1, Ev.flash false, Ev.writeLastCapture, Ev.semGive],
       some f, some env.endTime⟩

/-- camera_return_frame_buffer from camera_manager.c, modelled by the
number of esp_camera_fb_return calls it performs: one when fb is
non-NULL, none otherwise.  It touches no other state. -/
def camera_return_frame_buffer : Option Frame → Nat
  | some _ => 1
  | none => 0

/-- Events of clear_camera_buffers: a buffer drained, its release, and
the optional inter-drain delay. -/
inductive ClearEv where
  | get
  | ret
  | wait
deriving DecidableEq, Repr

/-- External behaviour visible to clear_camera_buffers: whether the
2-second wall-clock timeout has tripped at iteration i, and whether the
peripheral still has a queued buffer at iteration i. -/
structure ClearEnv where
  timeoutAt : Nat → Bool
  availAt : Nat → Bool

/-- Loop body of clear_camera_buffers: at each iteration check the
timeout, drain one buffer if available and return it immediately, then
optionally delay. -/
def clearLoop (env : ClearEnv) (delay_ms : Nat) : Nat → Nat → List ClearEv × Nat
  | _, 0 => ([], 0)
  | i, fuel + 1 =>
    if env.timeoutAt i then ([], 0)
    else if env.availAt i then
      let r := clearLoop env delay_ms (i + 1) fuel
      (ClearEv.get :: ClearEv.ret ::
        ((if 0 < delay_ms then [ClearEv.wait] else []) ++ r.1), r.2 + 1)
    else ([], 0)

/-- clear_camera_buffers from camera_manager.c: bounded drain of stale
frames, returning the events and the cleared count. -/
def clear_camera_buffers (env : ClearEnv) (max_attempts delay_ms : Nat) : List ClearEv × Nat :=
  clearLoop env delay_ms 0 max_attempts

/-- camera_config_params_t. -/
structure Config where
  pixel_format : Nat
  frame_size : Nat
  jpeg_quality : Nat
  fb_count : Nat
deriving DecidableEq, Repr

/-- External behaviour visible to camera_init_with_config. -/
structure InitEnv where
  semCreateOk : Bool             -- xSemaphoreCreateBinary() != NULL
  psramAvailable : Bool          -- esp_psram_is_initialized()
  espCameraInitErr : Option Nat  -- esp_camera_init: none = ESP_OK, some code = its error
  sensorAvailable : Bool         -- esp_camera_sensor_get() != NULL

/-- The camera manager's process-wide mutable state. -/
structure CamState where
  camera_initialized : Bool
  semExists : Bool          -- camera_semaphore != NULL
  last_capture_time : Nat
  flash : Bool              -- current level of FLASH_GPIO_NUM
  periphConfig : Option Config  -- configuration held by the camera driver
deriving DecidableEq, Repr

/-- camera_init_with_config from camera_manager.c: NULL-params check,
already-initialized early return, semaphore creation, flash GPIO low,
peripheral init with cleanup on failure, state update on success. -/
def camera_init_with_config (st : CamState) (params : Option Config) (env : InitEnv) :
    EspErr × CamState :=
  match params with
  | none => (EspErr.invalidArg, st)
  | some p =>
    if st.camera_initialized then (EspErr.ok, st)
    else if !st.semExists && !env.semCreateOk then (EspErr.noMem, st)
    else
      match env.espCameraInitErr with
      | some code =>
        (EspErr.periphError code,
         { st with semExists := false, flash := false })
      | none =>
        (EspErr.ok,
         { st with camera_initialized := true, semExists := true,
                   last_capture_time := 0, flash := false, periphConfig := some p })

/-- Illumination GPIO transition of one event. -/
def flashStep (s : Bool) (e : Ev) : Bool :=
  match e with
  | Ev.flash b => b
  | _ => s

/-- Level of the illumination GPIO after a trace, given its level f0 at
entry. -/
def flashAfter (f0 : Bool) (tr : List Ev) : Bool := tr.foldl flashStep f0

/-- Count of rate-limiter events (the read of last_capture_time and the
derived wait) that occur at a point where the capture gate is held. -/
def readHeldGo (held : Bool) : List Ev → Nat
  | [] => 0
  | Ev.semTake :: rest => readHeldGo true rest
  | Ev.semGive :: rest => readHeldGo false rest
  | Ev.readLastCapture :: rest => (if held then 1 else 0) + readHeldGo held rest
  | Ev.rateWait _ :: rest => (if held then 1 else 0) + readHeldGo held rest
  | _ :: rest => readHeldGo held rest

/-- Count of rate-limiter events occurring under the gate, starting with
the gate free. -/
def readHeldCount (tr : List Ev) : Nat := readHeldGo false tr

/-- Events that the retry loop itself can emit. -/
def loopEv : Ev → Bool
  | Ev.flush => true
  | Ev.settleDelay _ => true
  | Ev.flash _ => true
  | Ev.warmupDelay => true
  | Ev.stabilizeDelay => true
  | Ev.backoffDelay _ => true
  | Ev.fbGet _ => true
  | Ev.fbReturn _ => true
  | _ => false

/-- Number of occurrences of x in a list. -/
def countEv {α : Type} [DecidableEq α] (x : α) : List α → Nat
  | [] => 0
  | e :: t => (if e = x then 1 else 0) + countEv x t

/-- Whether an event is a capture attempt. -/
def isFbGet : Ev → Bool
  | Ev.fbGet _ => true
  | _ => false

/-- Number of capture attempts recorded in a trace. -/
def fbGetCount (tr : List Ev) : Nat := (tr.filter isFbGet).length

/-- The backoff delays of a trace, in order, in milliseconds. -/
def backoffsOf : List Ev → List Nat
  | [] => []
  | Ev.backoffDelay d :: t => d :: backoffsOf t
  | _ :: t => backoffsOf t

/-! Helper lemmas. -/

lemma validFrame_isSome {o : Option Frame} (h : validFrame o = true) : o.isSome = true := by
  cases o <;> simp_all [validFrame]

lemma rateTrace_shape (l c : Nat) :
    rateTrace l c = [Ev.readLastCapture] ∨
      ∃ w, rateTrace l c = [Ev.readLastCapture, Ev.rateWait w] := by
  by_cases h1 : l ≠ 0
  · by_cases h2 : tickSub c l < pdMS_TO_TICKS MIN_CAPTURE_INTERVAL_MS
    · right
      exact ⟨pdMS_TO_TICKS MIN_CAPTURE_INTERVAL_MS - tickSub c l,
        by simp [rateTrace, h1, h2]⟩
    · left; simp [rateTrace, h1, h2]
  · left; simp [rateTrace, h1]

lemma mem_ite_single {c : Prop} [Decidable c] {x e : Ev} :
    (e ∈ if c then [x] else ([] : List Ev)) ↔ c ∧ e = x := by
  split <;> simp_all

lemma attemptLoop_events_all (fbAt : Nat → Option Frame) :
    ∀ (l : List Nat), ((attemptLoop fbAt l).1.all loopEv) = true := by
  intro l
  induction l with
  | nil => rfl
  | cons a t ih =>
    simp only [attemptLoop]
    by_cases v : validFrame (fbAt a) = true
    · simp [v, loopEv]
    · by_cases s : (fbAt a).isSome = true <;>
        by_cases bk : a < MAX_CAPTURE_RETRIES <;>
          simp [v, s, bk, List.all_append, ih, loopEv]

lemma attemptLoop_events (fbAt : Nat → Option Frame) (l : List Nat) :
    ∀ e ∈ (attemptLoop fbAt l).1, loopEv e = true := by
  intro e he
  exact List.all_eq_true.mp (attemptLoop_events_all fbAt l) e he

lemma readHeldGo_neutral :
    ∀ (l : List Ev), (∀ e ∈ l, loopEv e = true) →
      ∀ (b : Bool) (rest : List Ev), readHeldGo b (l ++ rest) = readHeldGo b rest := by
  intro l
  induction l with
  | nil => intro _ b rest; rfl
  | cons e t ih =>
    intro h b rest
    have he : loopEv e = true := h e (List.mem_cons_self e t)
    have ht : ∀ x ∈ t, loopEv x = true := fun x hx => h x (List.mem_cons_of_mem e hx)
    cases e <;> first
      | (exact ih ht b rest)
      | (exact absurd he (by simp [loopEv]))

lemma countEv_append {α : Type} [DecidableEq α] (x : α) :
    ∀ (l1 l2 : List α), countEv x (l1 ++ l2) = countEv x l1 + countEv x l2 := by
  intro l1 l2
  induction l1 with
  | nil => simp [countEv]
  | cons e t ih =>
    rw [List.cons_append]
    simp only [countEv]
    rw [ih]
    omega

lemma backoffsOf_append :
    ∀ (l1 l2 : List Ev), backoffsOf (l1 ++ l2) = backoffsOf l1 ++ backoffsOf l2 := by
  intro l1 l2
  induction l1 with
  | nil => rfl
  | cons e t ih => cases e <;> simp [backoffsOf, ih]

lemma writeOutput_not_mem_rateTrace (l c : Nat) : Ev.writeOutput ∉ rateTrace l c := by
  rcases rateTrace_shape l c with h | ⟨w, h⟩ <;> simp [h]

lemma clearLoop_balanced (env : ClearEnv) (d : Nat) :
    ∀ (fuel i : Nat),
      countEv ClearEv.get (clearLoop env d i fuel).1 =
        countEv ClearEv.ret (clearLoop env d i fuel).1 := by
  intro fuel
  induction fuel with
  | zero => intro i; rfl
  | succ n ih =>
    intro i
    by_cases ht : env.timeoutAt i = true
    · simp [clearLoop, ht, countEv]
    · by_cases ha : env.availAt i = true
      · by_cases hd : 0 < d <;>
          simp [clearLoop, ht, ha, hd, countEv, countEv_append, ih]
      · simp [clearLoop, ht, ha, countEv]

lemma attemptSchedule_eq : attemptSchedule = [1, 2, 3] := by decide

lemma filter_isFbGet_ite (c : Prop) [Decidable c] (a : Nat) :
    (if c then [Ev.fbReturn a] else ([] : List Ev)).filter isFbGet = [] := by
  split <;> rfl

lemma backoffsOf_ite_fbReturn (c : Prop) [Decidable c] (a : Nat) :
    backoffsOf (if c then [Ev.fbReturn a] else []) = [] := by
  split <;> rfl

lemma encodePhase_filter (env : Env) (a : Nat) :
    (encodePhase env a).2.1.filter isFbGet = [] := by
  unfold encodePhase
  split_ifs <;> rfl

lemma encodePhase_backoffs (env : Env) (a : Nat) :
    backoffsOf (encodePhase env a).2.1 = [] := by
  unfold encodePhase
  split_ifs <;> rfl

lemma encodePhase_countReturn (env : Env) (a x : Nat) :
    countEv (Ev.fbReturn x) (encodePhase env a).2.1 = if a = x then 1 else 0 := by
  unfold encodePhase
  split_ifs <;> simp_all [countEv]

lemma countEv_ite (c : Prop) [Decidable c] (x y : Ev) :
    countEv x (if c then [y] else []) = if c ∧ y = x then 1 else 0 := by
  split_ifs <;> simp_all [countEv]

lemma fbGet_not_mem_ite (c : Prop) [Decidable c] (i x : Nat) :
    Ev.fbGet x ∉ (if c then [Ev.fbReturn i] else ([] : List Ev)) := by
  split <;> simp

lemma encodePhase_no_fbGet (env : Env) (a x : Nat) :
    Ev.fbGet x ∉ (encodePhase env a).2.1 := by
  unfold encodePhase
  split_ifs <;> simp

/-! Concrete environments used by counterexamples and witnesses. -/

/-- Environment in which the camera is initialized, the arguments are
valid, the gate is acquired, and the peripheral never returns a frame. -/
def envC1 : Env :=
  { initialized := true, argsNull := false, last_capture_time := 100,
    currentTime := 300, semAcquired := true, fbAt := fun _ => none,
    alloc := ⟨true, true, true⟩, b64Status := 0, b64Len := 0, endTime := 0 }

/-- Environment of Scenario A: a valid 4096-byte frame on the first
attempt, DRAM allocation succeeds, the transform behaves as standard
base64 (status 0, actual length b64EncLen 4096). -/
def envC2 : Env :=
  { initialized := true, argsNull := false, last_capture_time := 0,
    currentTime := 7, semAcquired := true,
    fbAt := fun n => if n = 1 then some ⟨4096, false⟩ else none,
    alloc := ⟨false, false, true⟩, b64Status := 0,
    b64Len := b64EncLen 4096, endTime := 12345 }

/-- Environment that takes the invalid-argument early return while the
camera is initialized. -/
def envC3 : Env :=
  { initialized := true, argsNull := true, last_capture_time := 0,
    currentTime := 0, semAcquired := true, fbAt := fun _ => none,
    alloc := ⟨true, true, true⟩, b64Status := 0, b64Len := 0, endTime := 0 }

/-- Environment in which the first attempt yields a valid 100-byte frame,
DRAM allocation succeeds, and the base64 transform reports status 7. -/
def envC8 : Env :=
  { initialized := true, argsNull := false, last_capture_time := 0,
    currentTime := 0, semAcquired := true,
    fbAt := fun n => if n = 1 then some ⟨100, false⟩ else none,
    alloc := ⟨false, false, true⟩, b64Status := 7, b64Len := 0, endTime := 0 }

/-! Claim theorems. -/

/-- C1 as stated is false: in this concrete execution of
camera_capture_to_base64 the rate limiter does read last_capture_time
(the read event is in the trace), yet no rate-limiter read or wait
happens while the capture gate is held — the read precedes the gate. -/
theorem c1_counterexample :
    Ev.readLastCapture ∈ (camera_capture_to_base64 envC1).trace ∧
    readHeldCount (camera_capture_to_base64 envC1).trace = 0 := by decide

/-- C1 amended: in every execution of camera_capture_to_base64 and of
camera_capture_raw the rate limiter's read of last_capture_time (and
the wait it derives from it) occurs strictly before the capture gate is
acquired — never while the gate is held — so the interval check can
interleave with another capture's recording of a new
last_capture_time. -/
theorem c1_rate_read_before_gate :
    (∀ env : Env, readHeldCount (camera_capture_to_base64 env).trace = 0) ∧
    (∀ env : RawEnv, readHeldCount (camera_capture_raw env).trace = 0) := by
  constructor
  · intro env
    cases hI : env.initialized with
    | false => simp [camera_capture_to_base64, hI, readHeldCount, readHeldGo]
    | true =>
      cases hA : env.argsNull with
      | true => simp [camera_capture_to_base64, hI, hA, readHeldCount, readHeldGo]
      | false =>
        cases hS : env.semAcquired with
        | false =>
          rcases rateTrace_shape env.last_capture_time env.currentTime with h | ⟨w, h⟩ <;>
            simp [camera_capture_to_base64, hI, hA, hS, h, readHeldCount, readHeldGo]
        | true =>
          have hN := readHeldGo_neutral (attemptLoop env.fbAt attemptSchedule).1
            (attemptLoop_events env.fbAt attemptSchedule)
          rcases hL : (attemptLoop env.fbAt attemptSchedule).2 with _ | a <;>
            rcases rateTrace_shape env.last_capture_time env.currentTime with h | ⟨w, h⟩ <;>
              simp [camera_capture_to_base64, hI, hA, hS, hL, h, encodePhase,
                readHeldCount, readHeldGo, List.append_assoc, hN] <;>
              (try split_ifs) <;> simp [readHeldGo]
  · intro env
    cases hI : env.initialized with
    | false => simp [camera_capture_raw, hI, readHeldCount, readHeldGo]
    | true =>
      cases hA : env.fbArgNull with
      | true => simp [camera_capture_raw, hI, hA, readHeldCount, readHeldGo]
      | false =>
        cases hS : env.semAcquired with
        | false =>
          rcases rateTrace_shape env.last_capture_time env.currentTime with h | ⟨w, h⟩ <;>
            simp [camera_capture_raw, hI, hA, hS, h, readHeldCount, readHeldGo]
        | true =>
          rcases hF : env.fbResult with _ | f <;>
            rcases rateTrace_shape env.last_capture_time env.currentTime with h | ⟨w, h⟩ <;>
              simp [camera_capture_raw, hI, hA, hS, hF, h, readHeldCount, readHeldGo]

/-- C2 as stated is false at this concrete input: with the peripheral
delivering a valid 4096-byte frame on the first attempt and the
external transform behaving as standard base64, the call succeeds but
writes an output length of 5464 = 4 * ceil(4096/3) characters, which is
not at most 5462 (5462 = ceil(4096 * 4/3) ignores padding). -/
theorem c2_counterexample :
    (camera_capture_to_base64 envC2).err = EspErr.ok ∧
    (camera_capture_to_base64 envC2).outputWritten = some 5464 ∧
    ¬(5464 ≤ 5462) := by decide

/-- C2 amended: if the camera is initialized, the output arguments are
valid, the gate is acquired, and the first peripheral attempt returns a
valid frame of 4096 bytes, then (with the allocation succeeding and the
external transform behaving as standard base64)
camera_capture_to_base64 succeeds with an output of exactly
b64EncLen 4096 = 5464 characters ending in exactly 2 padding
characters, and last_capture_time is updated. -/
theorem c2_scenario_a :
    ∀ env : Env,
      env.initialized = true → env.argsNull = false → env.semAcquired = true →
      env.fbAt 1 = some ⟨4096, false⟩ →
      (allocate_base64_buffer env.alloc (encoded_len 4096 + 1)).buffer ≠ none →
      env.b64Status = 0 → env.b64Len = b64EncLen 4096 →
      (camera_capture_to_base64 env).err = EspErr.ok ∧
      (camera_capture_to_base64 env).outputWritten = some (b64EncLen 4096) ∧
      b64EncLen 4096 = 5464 ∧ b64PadCount 4096 = 2 ∧
      (camera_capture_to_base64 env).newLastCapture = some env.endTime := by
  intro env hI hA hS hfb hB hStat hLen
  have hv : validFrame (env.fbAt 1) = true := by rw [hfb]; rfl
  have hloop : attemptLoop env.fbAt attemptSchedule =
      ([Ev.flush, Ev.settleDelay 300, Ev.flash true, Ev.warmupDelay, Ev.flush,
        Ev.stabilizeDelay, Ev.fbGet 1], some 1) := by
    simp [attemptSchedule_eq, attemptLoop, hv]
  rcases hBB : (allocate_base64_buffer env.alloc (encoded_len 4096 + 1)).buffer with _ | p
  · exact absurd hBB hB
  refine ⟨?_, ?_, by decide, by decide, ?_⟩ <;>
    simp [camera_capture_to_base64, hI, hA, hS, hloop, encodePhase, hfb, frameLen,
      hBB, hStat, hLen]

/-- Witness for C2 at the concrete Scenario A environment. -/
theorem c2_scenario_a_witness :
    (camera_capture_to_base64 envC2).err = EspErr.ok ∧
    (camera_capture_to_base64 envC2).outputWritten = some (b64EncLen 4096) ∧
    b64EncLen 4096 = 5464 ∧ b64PadCount 4096 = 2 ∧
    (camera_capture_to_base64 envC2).newLastCapture = some envC2.endTime :=
  c2_scenario_a envC2 rfl rfl rfl rfl (by decide) rfl rfl

/-- C3 as stated is false at this concrete input: the invalid-argument
early return of camera_capture_to_base64 performs no GPIO write, so
when the illumination GPIO is high at entry it is still high after the
call returns. -/
theorem c3_counterexample :
    flashAfter true (camera_capture_to_base64 envC3).trace = true := by decide

/-- C3 amended: after any call of camera_capture_to_base64 or
camera_capture_raw that passes the initialization and argument checks
and acquires the gate, the illumination GPIO is off; the early-return
paths (not-initialized, invalid-argument, gate-acquire timeout) perform
no GPIO write, so after them the GPIO keeps its entry level — in
particular it is off whenever it was off at entry. -/
theorem c3_illumination_off :
    (∀ (env : Env) (f0 : Bool),
      flashAfter f0 (camera_capture_to_base64 env).trace =
        (if env.initialized && !env.argsNull && env.semAcquired then false else f0)) ∧
    (∀ (env : RawEnv) (f0 : Bool),
      flashAfter f0 (camera_capture_raw env).trace =
        (if env.initialized && !env.fbArgNull && env.semAcquired then false else f0)) := by
  constructor
  · intro env f0
    cases hI : env.initialized with
    | false => simp [camera_capture_to_base64, hI, flashAfter]
    | true =>
      cases hA : env.argsNull with
      | true => simp [camera_capture_to_base64, hI, hA, flashAfter]
      | false =>
        cases hS : env.semAcquired with
        | false =>
          rcases rateTrace_shape env.last_capture_time env.currentTime with h | ⟨w, h⟩ <;>
            simp [camera_capture_to_base64, hI, hA, hS, h, flashAfter, flashStep]
        | true =>
          rcases hL : (attemptLoop env.fbAt attemptSchedule).2 with _ | a <;>
            rcases rateTrace_shape env.last_capture_time env.currentTime with h | ⟨w, h⟩ <;>
              simp [camera_capture_to_base64, hI, hA, hS, hL, h, encodePhase,
                flashAfter, flashStep, List.append_assoc, List.foldl_append] <;>
              (try split_ifs) <;> simp [flashStep]
  · intro env f0
    cases hI : env.initialized with
    | false => simp [camera_capture_raw, hI, flashAfter]
    | true =>
      cases hA : env.fbArgNull with
      | true => simp [camera_capture_raw, hI, hA, flashAfter]
      | false =>
        cases hS : env.semAcquired with
        | false =>
          rcases rateTrace_shape env.last_capture_time env.currentTime with h | ⟨w, h⟩ <;>
            simp [camera_capture_raw, hI, hA, hS, h, flashAfter, flashStep]
        | true =>
          rcases hF : env.fbResult with _ | f <;>
            rcases rateTrace_shape env.last_capture_time env.currentTime with h | ⟨w, h⟩ <;>
              simp [camera_capture_raw, hI, hA, hS, hF, h, flashAfter, flashStep]

/-- C8: when the base64 transform reports a non-zero status inside
camera_capture_to_base64, the function returns ESP_FAIL, frees the
encode buffer it allocated before returning, and does not write the
caller's output parameters, nor last_capture_time. -/
theorem c8_encoding_error_cleanup :
    ∀ (env : Env) (a : Nat),
      env.initialized = true → env.argsNull = false → env.semAcquired = true →
      (attemptLoop env.fbAt attemptSchedule).2 = some a →
      (allocate_base64_buffer env.alloc
        (encoded_len (frameLen (env.fbAt a)) + 1)).buffer ≠ none →
      env.b64Status ≠ 0 →
      (camera_capture_to_base64 env).err = EspErr.fail ∧
      Ev.memFree ∈ (camera_capture_to_base64 env).trace ∧
      Ev.writeOutput ∉ (camera_capture_to_base64 env).trace ∧
      (camera_capture_to_base64 env).outputWritten = none ∧
      (camera_capture_to_base64 env).newLastCapture = none := by
  intro env a hI hA hS hL hB hSt
  have h1 := writeOutput_not_mem_rateTrace env.last_capture_time env.currentTime
  have h2 : Ev.writeOutput ∉ (attemptLoop env.fbAt attemptSchedule).1 := by
    intro hm
    have := attemptLoop_events env.fbAt attemptSchedule _ hm
    simp [loopEv] at this
  rcases hBB : (allocate_base64_buffer env.alloc
      (encoded_len (frameLen (env.fbAt a)) + 1)).buffer with _ | p
  · exact absurd hBB hB
  refine ⟨?_, ?_, ?_, ?_, ?_⟩ <;>
    simp [camera_capture_to_base64, hI, hA, hS, hL, encodePhase, hBB, hSt,
      List.mem_append, h1, h2]

/-- Witness for C8 at a concrete environment in which the transform
reports status 7. -/
theorem c8_encoding_error_cleanup_witness :
    (camera_capture_to_base64 envC8).err = EspErr.fail ∧
    Ev.memFree ∈ (camera_capture_to_base64 envC8).trace ∧
    Ev.writeOutput ∉ (camera_capture_to_base64 envC8).trace ∧
    (camera_capture_to_base64 envC8).outputWritten = none ∧
    (camera_capture_to_base64 envC8).newLastCapture = none :=
  c8_encoding_error_cleanup envC8 1 rfl rfl rfl (by decide) (by decide) (by decide)

/-- C7: camera_capture_to_base64 performs at most MAX_CAPTURE_RETRIES
capture attempts; the backoff waits are exactly
RETRY_DELAY_MS * 2^(n-1) for each failed attempt n that is followed by
another attempt, there is one fewer backoff than attempts (none after
the final attempt), and the total backoff delay is bounded by the sum
of the series over attempts 1 .. MAX_CAPTURE_RETRIES - 1. -/
theorem c7_bounded_retries :
    ∀ env : Env,
      fbGetCount (camera_capture_to_base64 env).trace ≤ MAX_CAPTURE_RETRIES ∧
      backoffsOf (camera_capture_to_base64 env).trace =
        (List.range (fbGetCount (camera_capture_to_base64 env).trace - 1)).map
          (fun i => RETRY_DELAY_MS * 2 ^ i) ∧
      (backoffsOf (camera_capture_to_base64 env).trace).sum ≤
        ((List.range (MAX_CAPTURE_RETRIES - 1)).map
          (fun i => RETRY_DELAY_MS * 2 ^ i)).sum := by
  intro env
  cases hI : env.initialized with
  | false => simp [camera_capture_to_base64, hI, fbGetCount, backoffsOf]
  | true =>
    cases hA : env.argsNull with
    | true => simp [camera_capture_to_base64, hI, hA, fbGetCount, backoffsOf]
    | false =>
      cases hS : env.semAcquired with
      | false =>
        rcases rateTrace_shape env.last_capture_time env.currentTime with h | ⟨w, h⟩ <;>
          simp [camera_capture_to_base64, hI, hA, hS, h, fbGetCount, backoffsOf,
            isFbGet]
      | true =>
        by_cases v1 : validFrame (env.fbAt 1) = true <;>
          by_cases v2 : validFrame (env.fbAt 2) = true <;>
            by_cases v3 : validFrame (env.fbAt 3) = true <;>
              rcases rateTrace_shape env.last_capture_time env.currentTime with h | ⟨w, h⟩ <;>
                simp [camera_capture_to_base64, hI, hA, hS, h, attemptSchedule_eq,
                  attemptLoop, v1, v2, v3, MAX_CAPTURE_RETRIES, RETRY_DELAY_MS,
                  fbGetCount, backoffsOf, isFbGet, List.filter_append, backoffsOf_append,
                  filter_isFbGet_ite, backoffsOf_ite_fbReturn, encodePhase_filter,
                  encodePhase_backoffs, List.range_succ]

set_option maxHeartbeats 1000000 in
/-- C4: inside camera_capture_to_base64, every non-null frame buffer
obtained from the peripheral by a capture attempt is released exactly
once before the function returns (none is leaked, none is released
twice, and no release happens for an attempt that got no buffer); and
clear_camera_buffers releases every buffer it drains. -/
theorem c4_buffer_conservation :
    (∀ (env : Env) (a : Nat),
      countEv (Ev.fbReturn a) (camera_capture_to_base64 env).trace =
        (if Ev.fbGet a ∈ (camera_capture_to_base64 env).trace ∧
            (env.fbAt a).isSome = true then 1 else 0)) ∧
    (∀ (cenv : ClearEnv) (m d : Nat),
      countEv ClearEv.get (clear_camera_buffers cenv m d).1 =
        countEv ClearEv.ret (clear_camera_buffers cenv m d).1) := by
  constructor
  · intro env a
    cases hI : env.initialized with
    | false => simp [camera_capture_to_base64, hI, countEv]
    | true =>
      cases hA : env.argsNull with
      | true => simp [camera_capture_to_base64, hI, hA, countEv]
      | false =>
        cases hS : env.semAcquired with
        | false =>
          rcases rateTrace_shape env.last_capture_time env.currentTime with h | ⟨w, h⟩ <;>
            simp [camera_capture_to_base64, hI, hA, hS, h, countEv]
        | true =>
          rcases rateTrace_shape env.last_capture_time env.currentTime with h | ⟨w, h⟩ <;>
          by_cases v1 : validFrame (env.fbAt 1) = true <;>
          by_cases v2 : validFrame (env.fbAt 2) = true <;>
          by_cases v3 : validFrame (env.fbAt 3) = true <;>
          simp [camera_capture_to_base64, hI, hA, hS, h, attemptSchedule_eq,
            attemptLoop, v1, v2, v3, MAX_CAPTURE_RETRIES, RETRY_DELAY_MS,
            countEv, countEv_append, countEv_ite, fbGet_not_mem_ite,
            encodePhase_countReturn, encodePhase_no_fbGet, validFrame_isSome,
            List.mem_append, List.mem_cons] <;>
          by_cases a1 : a = 1 <;> by_cases a2 : a = 2 <;> by_cases a3 : a = 3 <;>
          simp_all [validFrame_isSome] <;> omega
  · intro cenv m d
    exact clearLoop_balanced cenv d m 0

/-- C5: for every input frame length n, the capacity handed to the base64
transform, encoded_len n = floor(n * 1.4) + 64, is at least
ceil(n * 4/3) = (4n+2)/3, the true base64 output lower bound, so
encoding never truncates. -/
theorem c5_encode_buffer_sizing :
    ∀ n : Nat, (4 * n + 2) / 3 ≤ encoded_len n ∧ 4 * n ≤ 3 * encoded_len n := by
  intro n
  unfold encoded_len
  constructor <;> omega

/-- C6: allocate_base64_buffer tries the large (PSRAM) pool first exactly
when that pool is initialized and the size strictly exceeds
PSRAM_MIN_SIZE_THRESHOLD; on large-pool failure it falls back to the
default pool; at or below the threshold it goes to the default pool
directly; it returns null exactly when every pool it tried failed. -/
theorem c6_tiered_allocation :
    ∀ (env : AllocEnv) (size : Nat),
      ((allocate_base64_buffer env size).tried.head? = some Pool.psram ↔
        env.psramInit = true ∧ PSRAM_MIN_SIZE_THRESHOLD < size) ∧
      (env.psramInit = true → PSRAM_MIN_SIZE_THRESHOLD < size → env.psramOk = false →
        (allocate_base64_buffer env size).tried = [Pool.psram, Pool.dram] ∧
        (allocate_base64_buffer env size).buffer =
          (if env.dramOk then some Pool.dram else none)) ∧
      (¬(env.psramInit = true ∧ PSRAM_MIN_SIZE_THRESHOLD < size) →
        (allocate_base64_buffer env size).tried = [Pool.dram] ∧
        (allocate_base64_buffer env size).buffer =
          (if env.dramOk then some Pool.dram else none)) ∧
      ((allocate_base64_buffer env size).buffer = none ↔
        ∀ p ∈ (allocate_base64_buffer env size).tried, poolOk env p = false) := by
  intro env size
  obtain ⟨pi, po, dr⟩ := env
  by_cases hs : PSRAM_MIN_SIZE_THRESHOLD < size <;>
    cases pi <;> cases po <;> cases dr <;>
      simp [allocate_base64_buffer, poolOk, hs]

/-- Witness for C6 at a concrete input: PSRAM initialized but failing, a
size above the threshold, fallback succeeds in DRAM. -/
theorem c6_tiered_allocation_witness :
    (allocate_base64_buffer ⟨true, false, true⟩ 9000).tried = [Pool.psram, Pool.dram] ∧
    (allocate_base64_buffer ⟨true, false, true⟩ 9000).buffer = some Pool.dram := by
  have h := (c6_tiered_allocation ⟨true, false, true⟩ 9000).2.1 rfl (by decide) rfl
  exact ⟨h.1, by simp [h.2]⟩

/-- C9: calling camera_init_with_config while already initialized is an
idempotent no-op: it returns ESP_OK and leaves the whole camera state
(initialized flag, gate, last_capture_time, flash GPIO, peripheral
configuration) unchanged. -/
theorem c9_init_idempotent :
    ∀ (st : CamState) (p : Config) (env : InitEnv),
      st.camera_initialized = true →
      camera_init_with_config st (some p) env = (EspErr.ok, st) := by
  intro st p env h
  simp [camera_init_with_config, h]

/-- Witness for C9 at a concrete already-initialized state. -/
theorem c9_init_idempotent_witness :
    camera_init_with_config
      ⟨true, true, 42, false, some ⟨1, 5, 12, 1⟩⟩
      (some ⟨1, 5, 12, 1⟩) ⟨true, true, none, true⟩ =
      (EspErr.ok, ⟨true, true, 42, false, some ⟨1, 5, 12, 1⟩⟩) :=
  c9_init_idempotent _ _ _ rfl

/-- C10: camera_return_frame_buffer with a NULL frame buffer performs no
peripheral release call at all; it is a safe no-op. -/
theorem c10_null_release_noop : camera_return_frame_buffer none = 0 := rfl

end Memonitor
